import Mathlib

/-!
Verification of the yt-download-ng orchestrator (`ytdl.py`).

A shallow embedding of the coordination logic of `ytdl.py`: config repair
(`fix_config_if_needed` / `backup_config`), the server supervisor
(`start_server`), the single-item downloader's retry loop
(`download_single`), and the batch orchestrator (`download_batch`).

External effects (filesystem reads/writes, subprocess exit codes, the
health probe) are modelled as explicit inputs and event traces; machine
behaviour such as a Python `UnboundLocalError` is modelled with `Option`.
-/

set_option autoImplicit false

namespace Ytdl

/-! ## Python string primitives

The config repair code uses Python's `in`, `str.replace`, `str.strip` and
`str.startswith`.  We embed them over `List Char` (scan left to right,
non-overlapping replacement, exactly as CPython does for non-empty
patterns; all patterns used by `ytdl.py` are non-empty).
-/

/-- Python `pat in s` restricted to the character list of `s`:
true iff `pat` occurs as a contiguous substring. -/
def containsSubAux (pat : List Char) : List Char → Bool
  | [] => pat.isPrefixOf []
  | c :: rest => pat.isPrefixOf (c :: rest) || containsSubAux pat rest

/-- Python `pat in s` on strings. -/
def containsSub (s pat : String) : Bool :=
  containsSubAux pat.data s.data

/-- One fuel-indexed pass of Python `s.replace(pat, rep)` for a non-empty
`pat`: at each position, if `pat` matches, emit `rep` and skip past the
match, otherwise keep one character; fuel bounds the number of steps and
`replaceFuel pat rep s.length s` performs the full scan. -/
def replaceFuel (pat rep : List Char) : Nat → List Char → List Char
  | _, [] => []
  | 0, s => s
  | fuel + 1, c :: rest =>
    if pat ≠ [] && pat.isPrefixOf (c :: rest) then
      rep ++ replaceFuel pat rep fuel (List.drop (pat.length - 1) rest)
    else
      c :: replaceFuel pat rep fuel rest

/-- Python `s.replace(pat, rep)` (non-empty `pat`). -/
def pyReplace (s pat rep : String) : String :=
  ⟨replaceFuel pat.data rep.data s.data.length s.data⟩

/-- The whitespace characters stripped by Python `str.strip()` (ASCII). -/
def isPySpace (c : Char) : Bool :=
  c = ' ' || c = '\t' || c = '\n' || c = '\r' || c = '\x0b' || c = '\x0c'

/-- Python `s.strip()`. -/
def pyStrip (s : String) : String :=
  ⟨((s.data.dropWhile isPySpace).reverse.dropWhile isPySpace).reverse⟩

/-- Python `s.startswith(pat)`. -/
def pyStartsWith (s pat : String) : Bool :=
  pat.data.isPrefixOf s.data

/-! ## Configuration documents and `fix_config_if_needed`

A profile's JSON document.  The repair code reads two keys,
`download_mode` and `template_folder` (absent keys modelled by `none`);
every other key/value pair is carried opaquely in `others` and never
touched by the repair code.
-/

structure Config where
  download_mode : Option String
  template_folder : Option String
  others : List (String × String)
deriving DecidableEq

/-- The unsupported placeholder checked by `fix_config_if_needed`
(`'\x7bdate:%Y\x7d' in template`). -/
def datePlaceholder : String := "{date:%Y}"

/-- Line 243 of `ytdl.py`: the template rewrite
`template.replace(' [\x7bdate:%Y\x7d]', '').replace('[\x7bdate:%Y\x7d]', '')`. -/
def stripDate (t : String) : String :=
  pyReplace (pyReplace t " [{date:%Y}]" "") "[{date:%Y}]" ""

/-- Fix 1 (lines 232-235): if `download_mode == 'aria2c'`, pop the key. -/
def fix1 (c : Config) : Config × Bool :=
  if c.download_mode == some "aria2c" then
    ({ c with download_mode := none }, true)
  else (c, false)

/-- Fix 2 (lines 238-246): if `template_folder` is present and contains the
placeholder, rewrite it with `stripDate`. -/
def fix2 (c : Config) : Config × Bool :=
  match c.template_folder with
  | some t =>
    if containsSub t datePlaceholder then
      ({ c with template_folder := some (stripDate t) }, true)
    else (c, false)
  | none => (c, false)

/-- The document produced by one repair pass (fix 1 then fix 2). -/
def repaired (c : Config) : Config :=
  (fix2 (fix1 c).1).1

/-- Whether any fix fired (the `fixed` flag of `fix_config_if_needed`). -/
def repairFlag (c : Config) : Bool :=
  (fix1 c).2 || (fix2 (fix1 c).1).2

/-- The backup pre-condition (lines 225-226):
`config.get('download_mode') == 'aria2c' or
 '\x7bdate:%Y\x7d' in str(config.get('template_folder', ''))`. -/
def hasDefect (c : Config) : Bool :=
  c.download_mode == some "aria2c"
    || containsSub (c.template_folder.getD "") datePlaceholder

set_option linter.unusedVariables false in
/-- Function `backup_config` (lines 203-213) derives the backup file name from the
config file's stem alone: `f'\x7bconfig_path.stem\x7d_backup.json'`.  The
wall-clock time `now` at which the run happens is in scope for the code but
unused — the name carries no timestamp. -/
def backup_config (stem : String) (now : Nat) : String :=
  stem ++ "_backup.json"

/-- Outcome of reading and JSON-parsing the config file. -/
inductive ReadState
  | readErr
  | parseErr
  | ok (c : Config)

/-- Filesystem events performed by a repair run, in order. -/
inductive FsEvent
  | backup (name : String) (original : Config)
  | write (doc : Config)
deriving DecidableEq

/-- Function `fix_config_if_needed` (lines 215-256).  `stem`/`now` feed the backup
name; `input` is the read/parse outcome for the file; `backupOk` is whether
the `shutil.copy2` inside `backup_config` succeeds (its failure is caught
there and only logged); `writeOk` is whether the final `json.dump`
succeeds (its failure is caught by the outer `except`, which returns
`False`).  Returns the function's boolean result and the ordered trace of
filesystem mutations that actually happened. -/
def fix_config_if_needed (stem : String) (now : Nat) (input : ReadState)
    (create_backup backupOk writeOk : Bool) : Bool × List FsEvent :=
  match input with
  | .readErr => (false, [])
  | .parseErr => (false, [])
  | .ok config =>
    let backupEvents :=
      if create_backup && hasDefect config && backupOk then
        [FsEvent.backup (backup_config stem now) config]
      else []
    if repairFlag config then
      if writeOk then (true, backupEvents ++ [FsEvent.write (repaired config)])
      else (false, backupEvents)
    else (false, backupEvents)

/-! ## Server supervisor (`start_server`, lines 92-158)

The environment a run observes: whether a matching node process was found
(`is_server_running`), whether the pre-spawn health probe succeeded
(`check_server_health`), whether `bgutil-pot-provider/server/build/main.js`
exists, how the `subprocess.Popen` spawn turns out, and whether the
post-spawn health probe succeeds.  The result is the returned exit code
together with the log lines relevant to the contract.
-/

inductive SpawnResult
  | ok
  | nodeMissing
  | otherError
deriving DecidableEq

structure ServerEnv where
  runningPid : Option Nat
  healthyBefore : Bool
  fileExists : Bool
  spawnResult : SpawnResult
  healthyAfter : Bool

/-- Lines 111-158: the part of `start_server` after the already-running
fast path: file-existence check, spawn, post-spawn probe. -/
def start_phase (e : ServerEnv) : Int × List String :=
  if e.fileExists then
    match e.spawnResult with
    | .ok =>
      if e.healthyAfter then
        (0, ["PO token server started successfully"])
      else
        (0, ["Server started but not responding yet, may need a moment..."])
    | .nodeMissing =>
      (1, ["Node.js not found. Please install Node.js.",
           "Install with: winget install OpenJS.NodeJS"])
    | .otherError => (1, ["Failed to start server"])
  else
    (1, ["Server file not found",
         "Run: cd bgutil-pot-provider && npm install && npx tsc"])

/-- Function `start_server` (lines 92-158): healthy-running fast path returns 0;
a found-but-unhealthy process is terminated and the start phase runs;
otherwise the start phase runs directly. -/
def start_server (e : ServerEnv) : Int × List String :=
  match e.runningPid with
  | some _ =>
    if e.healthyBefore then
      (0, ["PO token server is already running"])
    else
      let r := start_phase e
      (r.1, "Found node process but server not responding, restarting..." :: r.2)
  | none => start_phase e

/-! ## Single-item downloader (`download_single`, lines 258-333)

The result of `start_server()` is ignored (line 275) and `fix_config_if_needed`
only mutates the config file, so the returned exit code depends on: profile
existence, interpreter resolution, and the engine subprocess's exit codes.
`engine k` is the exit code of the `k`-th engine invocation (0-based).
`none` models the `UnboundLocalError` raised at line 333 when the retry
loop body never executed (`result` unbound); `some (code, n)` means the
function returned `code` after `n` engine invocations.
-/

structure DownloadEnv where
  profileExists : Bool
  venvExists : Bool
  gytmdlInSystem : Bool
  engine : Nat → Int

/-- The retry loop (lines 319-333): attempts at indices `i, i+1, ...` with
`fuel` iterations remaining; returns 0 at the first zero exit, the last
observed exit code on exhaustion, and `none` when no iteration ran. -/
def retryFuel (engine : Nat → Int) : Nat → Nat → Option (Int × Nat)
  | _, 0 => none
  | i, fuel + 1 =>
    if engine i = 0 then some (0, i + 1)
    else
      match retryFuel engine (i + 1) fuel with
      | some res => some res
      | none => some (engine i, i + 1)

/-- Function `download_single` (lines 258-333): missing profile → exit 1 with no
engine invocation; no venv interpreter and no system `gytmdl` → exit 1 with
no engine invocation; otherwise the retry loop runs
`range(max_retries + 1)` times (empty for negative `max_retries`).  On the
venv path, `result` is unbound before the loop, so an empty loop makes
line 333 raise (`none`).  On the system-Python fallback path, line 299
already bound `result` to the `import gytmdl` check (return code 0), so an
empty loop makes line 333 return that stale code 0 normally, with no
engine invocation. -/
def download_single (env : DownloadEnv) (max_retries : Int) : Option (Int × Nat) :=
  if env.profileExists then
    if env.venvExists then
      retryFuel env.engine 0 (max_retries + 1).toNat
    else if env.gytmdlInSystem then
      match retryFuel env.engine 0 (max_retries + 1).toNat with
      | some r => some r
      | none => some (0, 0)
    else some (1, 0)
  else some (1, 0)

/-! ## Batch orchestrator (`download_batch`, lines 336-418) -/

/-- Lines 358-364: keep each line's 1-based number with the stripped line,
dropping lines that are empty (after stripping) or start with `#`. -/
def read_urls (lines : List String) : List (Nat × String) :=
  lines.enum.filterMap fun p =>
    let line := pyStrip p.2
    if line.isEmpty || pyStartsWith line "#" then none
    else some (p.1 + 1, line)

/-- What `download_single(url, profile)` does for one work item, as the
batch loop observes it (lines 384-403). -/
inductive ItemOutcome
  | success
  | failure
  | raised
  | interrupted
deriving DecidableEq

structure BatchTally where
  succ : Nat
  fail : Nat
  failedUrls : List (Nat × String)
deriving DecidableEq

/-- The per-item loop (lines 379-403): success increments `succ`; a
non-zero result or a non-interrupt exception increments `fail`, records the
item and — unless `continue_on_error` — breaks; a `KeyboardInterrupt`
breaks immediately, counting the item in neither bucket. -/
def batch_loop (outcome : Nat × String → ItemOutcome) (cont : Bool) :
    List (Nat × String) → BatchTally → BatchTally
  | [], t => t
  | item :: rest, t =>
    match outcome item with
    | .success => batch_loop outcome cont rest { t with succ := t.succ + 1 }
    | .failure =>
      let t' := { t with fail := t.fail + 1, failedUrls := t.failedUrls ++ [item] }
      if cont then batch_loop outcome cont rest t' else t'
    | .raised =>
      let t' := { t with fail := t.fail + 1, failedUrls := t.failedUrls ++ [item] }
      if cont then batch_loop outcome cont rest t' else t'
    | .interrupted => t

/-- The tally `download_batch` reaches at its summary step. -/
def batch_tally (lines : List String) (outcome : Nat × String → ItemOutcome)
    (cont : Bool) : BatchTally :=
  batch_loop outcome cont (read_urls lines) ⟨0, 0, []⟩

/-- Function `download_batch` (lines 336-418): missing list file → 1; no qualifying
work items → 0 (line 368); else run the loop and return
`0 if fail_count == 0 else 1` (line 418). -/
def download_batch (fileLines : Option (List String))
    (outcome : Nat × String → ItemOutcome) (cont : Bool) : Int :=
  match fileLines with
  | none => 1
  | some lines =>
    if read_urls lines = [] then 0
    else if (batch_tally lines outcome cont).fail = 0 then 0 else 1

/-! ## Basic lemmas about the repair pass -/

theorem fix1_of_beq_true {c : Config} (h : (c.download_mode == some "aria2c") = true) :
    fix1 c = ({ c with download_mode := none }, true) := by
  simp [fix1, h]

theorem fix1_of_beq_false {c : Config} (h : (c.download_mode == some "aria2c") = false) :
    fix1 c = (c, false) := by
  simp [fix1, h]

theorem fix2_of_contains {c : Config} {t : String} (htf : c.template_folder = some t)
    (hc : containsSub t datePlaceholder = true) :
    fix2 c = ({ c with template_folder := some (stripDate t) }, true) := by
  simp [fix2, htf, hc]

theorem fix2_of_not_contains {c : Config} {t : String} (htf : c.template_folder = some t)
    (hc : containsSub t datePlaceholder = false) :
    fix2 c = (c, false) := by
  simp [fix2, htf, hc]

theorem fix2_of_none {c : Config} (htf : c.template_folder = none) :
    fix2 c = (c, false) := by
  simp [fix2, htf]

theorem containsSub_empty : containsSub "" datePlaceholder = false := by decide

theorem fix1_template_folder (c : Config) : ((fix1 c).1).template_folder = c.template_folder := by
  unfold fix1; split <;> rfl

theorem fix1_others (c : Config) : ((fix1 c).1).others = c.others := by
  unfold fix1; split <;> rfl

theorem fix2_others (c : Config) : ((fix2 c).1).others = c.others := by
  cases htf : c.template_folder with
  | none => rw [fix2_of_none htf]
  | some t =>
    cases hc : containsSub t datePlaceholder with
    | false => rw [fix2_of_not_contains htf hc]
    | true => rw [fix2_of_contains htf hc]

theorem fix2_download_mode (c : Config) : ((fix2 c).1).download_mode = c.download_mode := by
  cases htf : c.template_folder with
  | none => rw [fix2_of_none htf]
  | some t =>
    cases hc : containsSub t datePlaceholder with
    | false => rw [fix2_of_not_contains htf hc]
    | true => rw [fix2_of_contains htf hc]

theorem repaired_others (c : Config) : (repaired c).others = c.others := by
  unfold repaired
  rw [fix2_others, fix1_others]

theorem repaired_download_mode (c : Config) :
    (repaired c).download_mode
      = if c.download_mode == some "aria2c" then none else c.download_mode := by
  unfold repaired
  rw [fix2_download_mode]
  cases h : c.download_mode == some "aria2c" with
  | false => rw [fix1_of_beq_false h]; simp
  | true => rw [fix1_of_beq_true h]; simp

theorem repaired_beq_false (c : Config) :
    ((repaired c).download_mode == some "aria2c") = false := by
  rw [repaired_download_mode]
  cases h : c.download_mode == some "aria2c" with
  | false => simpa using h
  | true => simp

theorem repaired_template_of_contains {c : Config} {t : String}
    (htf : c.template_folder = some t) (hc : containsSub t datePlaceholder = true) :
    (repaired c).template_folder = some (stripDate t) := by
  unfold repaired
  have h1 : ((fix1 c).1).template_folder = some t := by rw [fix1_template_folder, htf]
  rw [fix2_of_contains h1 hc]

theorem repairFlag_of_contains {c : Config} {t : String}
    (htf : c.template_folder = some t) (hc : containsSub t datePlaceholder = true) :
    repairFlag c = true := by
  unfold repairFlag
  have h1 : ((fix1 c).1).template_folder = some t := by rw [fix1_template_folder, htf]
  rw [fix2_of_contains h1 hc]
  simp

theorem repairFlag_of_defect {c : Config} (hd : hasDefect c = true) :
    repairFlag c = true := by
  unfold hasDefect at hd
  rw [Bool.or_eq_true] at hd
  cases hd with
  | inl h => unfold repairFlag; rw [fix1_of_beq_true h]; simp
  | inr h =>
    cases htf : c.template_folder with
    | none => rw [htf] at h; simp only [Option.getD] at h; rw [containsSub_empty] at h; exact absurd h (by simp)
    | some t =>
      rw [htf] at h
      simp only [Option.getD] at h
      exact repairFlag_of_contains htf h


/-! ## Claim theorems: config repair -/

/-- C1, counterexample: a configuration whose folder-naming template holds a
bare (not bracket-wrapped) `\x7bdate:%Y\x7d` is rewritten by Config Repair —
it reports a fix and writes the document back — yet the written template
still contains the placeholder substring, so the claim that post-repair the
placeholder substring is absent is false. -/
theorem c1_bare_placeholder_survives :
    containsSub "{artist} {date:%Y}" datePlaceholder = true ∧
    fix_config_if_needed "gytmdl" 0 (ReadState.ok ⟨none, some "{artist} {date:%Y}", []⟩) true true true
      = (true, [FsEvent.backup "gytmdl_backup.json" ⟨none, some "{artist} {date:%Y}", []⟩,
                FsEvent.write ⟨none, some "{artist} {date:%Y}", []⟩]) := by
  decide

/-- C1 (amended): for every configuration document whose folder-naming
template contains the placeholder substring, Config Repair reports a fix and
writes back a document whose template is the original with every occurrence
of the space-and-bracket-wrapped placeholder and then every occurrence of
the bracket-wrapped placeholder removed (everything else verbatim; a bare
occurrence is not removed); `download_mode` and all other keys are handled
independently of the template. -/
theorem c1_template_fix (stem : String) (now : Nat) (c : Config) (t : String) (cb bOk : Bool)
    (htf : c.template_folder = some t) (hc : containsSub t datePlaceholder = true) :
    (fix_config_if_needed stem now (.ok c) cb bOk true).1 = true ∧
    (∃ pre, (fix_config_if_needed stem now (.ok c) cb bOk true).2
        = pre ++ [FsEvent.write (repaired c)]) ∧
    (repaired c).template_folder = some (stripDate t) ∧
    (repaired c).others = c.others ∧
    (repaired c).download_mode
      = (if c.download_mode == some "aria2c" then none else c.download_mode) := by
  have hflag := repairFlag_of_contains htf hc
  refine ⟨?_, ?_, repaired_template_of_contains htf hc, repaired_others c,
    repaired_download_mode c⟩
  · simp [fix_config_if_needed, hflag]
  · refine ⟨if cb && hasDefect c && bOk then [FsEvent.backup (backup_config stem now) c] else [], ?_⟩
    simp [fix_config_if_needed, hflag]

/-- C1 witness: the amended statement instantiated at a template with one
space-and-bracket-wrapped occurrence. -/
theorem c1_witness :
    (fix_config_if_needed "p" 0 (ReadState.ok ⟨none, some "x [{date:%Y}]y", []⟩) true true true).1 = true ∧
    (∃ pre, (fix_config_if_needed "p" 0 (ReadState.ok ⟨none, some "x [{date:%Y}]y", []⟩) true true true).2
        = pre ++ [FsEvent.write (repaired ⟨none, some "x [{date:%Y}]y", []⟩)]) ∧
    (repaired ⟨none, some "x [{date:%Y}]y", []⟩).template_folder = some (stripDate "x [{date:%Y}]y") ∧
    (repaired ⟨none, some "x [{date:%Y}]y", []⟩).others = ([] : List (String × String)) ∧
    (repaired ⟨none, some "x [{date:%Y}]y", []⟩).download_mode
      = (if (none : Option String) == some "aria2c" then none else (none : Option String)) :=
  c1_template_fix "p" 0 ⟨none, some "x [{date:%Y}]y", []⟩ "x [{date:%Y}]y" true true rfl (by decide)

/-- C2, counterexample: on a document whose template holds a bare
`\x7bdate:%Y\x7d`, the first application of Config Repair reports a fix and
leaves the document unchanged, and the second application again returns
`true` — not the claimed `false`. -/
theorem c2_second_run_reports_fix :
    (fix_config_if_needed "gytmdl" 0 (ReadState.ok ⟨none, some "{date:%Y}", []⟩) true true true).1 = true ∧
    repaired ⟨none, some "{date:%Y}", []⟩ = ⟨none, some "{date:%Y}", []⟩ ∧
    (fix_config_if_needed "gytmdl" 0
        (ReadState.ok (repaired ⟨none, some "{date:%Y}", []⟩)) true true true).1 = true := by
  decide

/-- C2 (amended): for every configuration document whose once-repaired
template (when present) no longer contains the placeholder substring — in
particular whenever every occurrence was bracket-wrapped and removal did not
recreate one — a second application of Config Repair is a no-op: it returns
`false`, performs no backup and no write, and the document is a fixed point
of the repair pass. -/
theorem c2_idempotent_when_placeholder_gone (stem : String) (now : Nat) (c : Config)
    (cb bOk wOk : Bool)
    (h : ∀ t, (repaired c).template_folder = some t → containsSub t datePlaceholder = false) :
    fix_config_if_needed stem now (.ok (repaired c)) cb bOk wOk = (false, []) ∧
    repaired (repaired c) = repaired c := by
  have hdm := repaired_beq_false c
  have hfix2 : fix2 (repaired c) = (repaired c, false) := by
    cases htf : (repaired c).template_folder with
    | none => exact fix2_of_none htf
    | some t => exact fix2_of_not_contains htf (h t htf)
  have hflag : repairFlag (repaired c) = false := by
    unfold repairFlag
    rw [fix1_of_beq_false hdm]
    show (false || (fix2 (repaired c)).2) = false
    rw [hfix2]
    rfl
  have hdef : hasDefect (repaired c) = false := by
    unfold hasDefect
    rw [hdm]
    cases htf : (repaired c).template_folder with
    | none => simp [htf, containsSub_empty]
    | some t => simp [htf, h t htf]
  constructor
  · simp [fix_config_if_needed, hflag, hdef]
  · show (fix2 (fix1 (repaired c)).1).1 = repaired c
    rw [fix1_of_beq_false hdm]
    show (fix2 (repaired c)).1 = repaired c
    rw [hfix2]

/-- C2 witness: the amended statement instantiated at a document with both
defects, whose repaired template is free of the placeholder. -/
theorem c2_witness :
    fix_config_if_needed "p" 0
        (ReadState.ok (repaired ⟨some "aria2c", some "a [{date:%Y}]", []⟩)) true true true
      = (false, []) ∧
    repaired (repaired ⟨some "aria2c", some "a [{date:%Y}]", []⟩)
      = repaired ⟨some "aria2c", some "a [{date:%Y}]", []⟩ :=
  c2_idempotent_when_placeholder_gone "p" 0 ⟨some "aria2c", some "a [{date:%Y}]", []⟩ true true true
    (by
      intro t ht
      have hval : (repaired ⟨some "aria2c", some "a [{date:%Y}]", []⟩).template_folder
          = some "a" := by decide
      rw [hval] at ht
      injection ht with ht
      subst ht
      decide)

/-- C5, counterexample: the backup file name is derived from the config
file's base name alone — two runs at different wall-clock times produce the
identical name `gytmdl_backup.json` — so the backup name carries no
timestamp, contrary to the claim. -/
theorem c5_backup_name_no_timestamp :
    backup_config "gytmdl" 0 = backup_config "gytmdl" 1759276800 ∧
    backup_config "gytmdl" 0 = "gytmdl_backup.json" :=
  ⟨rfl, rfl⟩

/-- C5 (amended): when a defect is present and backup is requested, Config
Repair copies the original document to the backup area — under the
deterministic, timestamp-free name `stem ++ "_backup.json"` — strictly
before writing the mutated document; and when the backup copy fails, the
repair still proceeds and applies its fixes. -/
theorem c5_backup_before_mutation (stem : String) (now : Nat) (c : Config)
    (hd : hasDefect c = true) :
    fix_config_if_needed stem now (.ok c) true true true
      = (true, [FsEvent.backup (stem ++ "_backup.json") c, FsEvent.write (repaired c)]) ∧
    fix_config_if_needed stem now (.ok c) true false true
      = (true, [FsEvent.write (repaired c)]) := by
  have hflag := repairFlag_of_defect hd
  constructor <;> simp [fix_config_if_needed, hflag, hd, backup_config]

/-- C5 witness: the amended statement instantiated at a document with the
legacy download mode. -/
theorem c5_witness :
    fix_config_if_needed "gytmdl" 0 (ReadState.ok ⟨some "aria2c", none, []⟩) true true true
      = (true, [FsEvent.backup ("gytmdl" ++ "_backup.json") ⟨some "aria2c", none, []⟩,
                FsEvent.write (repaired ⟨some "aria2c", none, []⟩)]) ∧
    fix_config_if_needed "gytmdl" 0 (ReadState.ok ⟨some "aria2c", none, []⟩) true false true
      = (true, [FsEvent.write (repaired ⟨some "aria2c", none, []⟩)]) :=
  c5_backup_before_mutation "gytmdl" 0 ⟨some "aria2c", none, []⟩ (by decide)

/-- C7: for every configuration path, a failure to read, to parse, or to
write the document makes Config Repair return `false` (no fix applied)
rather than propagate the error. -/
theorem c7_io_failure_returns_false (stem : String) (now : Nat) (cb bOk wOk : Bool) (c : Config) :
    (fix_config_if_needed stem now ReadState.readErr cb bOk wOk).1 = false ∧
    (fix_config_if_needed stem now ReadState.parseErr cb bOk wOk).1 = false ∧
    (fix_config_if_needed stem now (ReadState.ok c) cb bOk false).1 = false := by
  refine ⟨rfl, rfl, ?_⟩
  cases hflag : repairFlag c <;> simp [fix_config_if_needed, hflag]


/-! ## Lemmas about the retry loop -/

theorem retryFuel_zero (engine : Nat → Int) (i : Nat) : retryFuel engine i 0 = none := rfl

theorem retryFuel_succ (engine : Nat → Int) (i fuel : Nat) :
    retryFuel engine i (fuel + 1)
      = if engine i = 0 then some (0, i + 1)
        else
          match retryFuel engine (i + 1) fuel with
          | some res => some res
          | none => some (engine i, i + 1) := rfl

theorem retryFuel_all_fail (engine : Nat → Int) (h : ∀ j, engine j ≠ 0) :
    ∀ (fuel i : Nat), retryFuel engine i (fuel + 1) = some (engine (i + fuel), i + fuel + 1) := by
  intro fuel
  induction fuel with
  | zero =>
    intro i
    rw [retryFuel_succ, if_neg (h i)]
    rfl
  | succ f ih =>
    intro i
    rw [retryFuel_succ, if_neg (h i), ih (i + 1)]
    have e1 : i + 1 + f = i + (f + 1) := by omega
    rw [e1]

theorem retryFuel_count_le (engine : Nat → Int) :
    ∀ (fuel i : Nat) (c : Int) (n : Nat), retryFuel engine i fuel = some (c, n) → n ≤ i + fuel := by
  intro fuel
  induction fuel with
  | zero =>
    intro i c n hsome
    rw [retryFuel_zero] at hsome
    exact absurd hsome (by simp)
  | succ f ih =>
    intro i c n hsome
    rw [retryFuel_succ] at hsome
    by_cases he : engine i = 0
    · rw [if_pos he] at hsome
      simp at hsome
      omega
    · rw [if_neg he] at hsome
      cases hrec : retryFuel engine (i + 1) f with
      | some res =>
        obtain ⟨c0, n0⟩ := res
        rw [hrec] at hsome
        simp at hsome
        have := ih (i + 1) c0 n0 hrec
        omega
      | none =>
        rw [hrec] at hsome
        simp at hsome
        omega

theorem retryFuel_succ_isSome (engine : Nat → Int) (i fuel : Nat) :
    ∃ r, retryFuel engine i (fuel + 1) = some r := by
  rw [retryFuel_succ]
  by_cases he : engine i = 0
  · exact ⟨(0, i + 1), by rw [if_pos he]⟩
  · rw [if_neg he]
    cases hrec : retryFuel engine (i + 1) fuel with
    | some res => exact ⟨res, rfl⟩
    | none => exact ⟨(engine i, i + 1), rfl⟩

/-! ## Claim theorems: single-item downloader -/

/-- C3: with an existing profile and a resolved interpreter, the downloader
with `max_retries = 2` invokes the engine exactly 3 times and returns its
last exit code when every invocation fails; invokes it exactly twice and
returns 0 when it fails once then succeeds; in general it invokes the
engine at most `max_retries + 1` times and returns 0 after one invocation
when the first exit code is zero. -/
theorem c3_retry_policy (env : DownloadEnv)
    (hp : env.profileExists = true) (hv : (env.venvExists || env.gytmdlInSystem) = true) :
    ((∀ i, env.engine i ≠ 0) → download_single env 2 = some (env.engine 2, 3)) ∧
    (env.engine 0 ≠ 0 → env.engine 1 = 0 → download_single env 2 = some (0, 2)) ∧
    (∀ (m : Int) (c : Int) (n : Nat), download_single env m = some (c, n) → n ≤ (m + 1).toNat) ∧
    (∀ m : Int, 0 ≤ m → env.engine 0 = 0 → download_single env m = some (0, 1)) := by
  have hds : ∀ (m : Int) (r : Int × Nat),
      retryFuel env.engine 0 (m + 1).toNat = some r → download_single env m = some r := by
    intro m r h
    cases hvenv : env.venvExists with
    | true => simp [download_single, hp, hvenv, h]
    | false =>
      have hg : env.gytmdlInSystem = true := by
        rw [hvenv] at hv
        simpa using hv
      simp [download_single, hp, hvenv, hg, h]
  refine ⟨?_, ?_, ?_, ?_⟩
  · intro h
    refine hds 2 _ ?_
    have h3 : ((2 : Int) + 1).toNat = 2 + 1 := rfl
    rw [h3, retryFuel_all_fail env.engine h 2 0]
  · intro h0 h1
    refine hds 2 (0, 2) ?_
    show retryFuel env.engine 0 3 = some (0, 2)
    have h1' : retryFuel env.engine 1 2 = some (0, 2) := by
      rw [retryFuel_succ, if_pos h1]
    rw [retryFuel_succ, if_neg h0, h1']
  · intro m c n hsome
    cases hvenv : env.venvExists with
    | true =>
      have hr : retryFuel env.engine 0 (m + 1).toNat = some (c, n) := by
        simpa [download_single, hp, hvenv] using hsome
      have := retryFuel_count_le env.engine (m + 1).toNat 0 c n hr
      simpa using this
    | false =>
      have hg : env.gytmdlInSystem = true := by
        rw [hvenv] at hv
        simpa using hv
      have hred : download_single env m
          = (match retryFuel env.engine 0 (m + 1).toNat with
             | some r => some r
             | none => some (0, 0)) := by
        simp [download_single, hp, hvenv, hg]
      rw [hred] at hsome
      cases hrec : retryFuel env.engine 0 (m + 1).toNat with
      | some r =>
        obtain ⟨c0, n0⟩ := r
        rw [hrec] at hsome
        simp at hsome
        have := retryFuel_count_le env.engine (m + 1).toNat 0 c0 n0 hrec
        omega
      | none =>
        rw [hrec] at hsome
        have h' : some ((0 : Int), (0 : Nat)) = some (c, n) := hsome
        injection h' with h2
        injection h2 with hc hn
        omega
  · intro m hm h0
    refine hds m (0, 1) ?_
    obtain ⟨k, hk⟩ : ∃ k, (m + 1).toNat = k + 1 := ⟨m.toNat, by omega⟩
    rw [hk, retryFuel_succ, if_pos h0]

/-- C3 witness: an engine that fails once then succeeds, with
`max_retries = 2`: the downloader returns 0 after exactly 2 invocations. -/
theorem c3_witness :
    download_single ⟨true, true, false, fun i => if i = 1 then 0 else 7⟩ 2 = some (0, 2) :=
  (c3_retry_policy ⟨true, true, false, fun i => if i = 1 then 0 else 7⟩ rfl rfl).2.1
    (by decide) (by decide)

/-- C9, counterexample: with the profile present, the venv absent and
`gytmdl` importable in system Python, line 299 binds `result` to the result
of the module-availability check (return code 0); a negative `max_retries` then makes
the empty loop fall through to line 333, which returns that stale 0
normally (zero engine invocations) — the function does not raise, so the
claim that every negative `max_retries` run raises is false. -/
theorem c9_fallback_returns_normally :
    download_single ⟨true, false, true, fun _ => 5⟩ (-1) = some (0, 0) := by
  decide

/-- C9 (amended): with an existing profile, a negative `max_retries` makes
the retry loop body never execute, and what happens then depends on the
interpreter path: on the venv path `result` is unbound and the function
raises instead of returning an exit code (modelled as `none`); on the
system-Python fallback path `result` was already bound by the module
check of line 299, so the function returns its stale return code 0
normally with zero engine invocations.  For any non-negative `max_retries`
(on either path) it terminates normally with a defined return value. -/
theorem c9_negative_retries_path_dependent (env : DownloadEnv) (m : Int)
    (hp : env.profileExists = true) :
    (m < 0 → env.venvExists = true → download_single env m = none) ∧
    (m < 0 → env.venvExists = false → env.gytmdlInSystem = true →
      download_single env m = some (0, 0)) ∧
    (0 ≤ m → (env.venvExists || env.gytmdlInSystem) = true →
      ∃ r, download_single env m = some r) := by
  refine ⟨?_, ?_, ?_⟩
  · intro hm hvenv
    have h0 : (m + 1).toNat = 0 := by omega
    simp [download_single, hp, hvenv, h0, retryFuel_zero]
  · intro hm hvenv hg
    have h0 : (m + 1).toNat = 0 := by omega
    simp [download_single, hp, hvenv, hg, h0, retryFuel_zero]
  · intro hm hv
    obtain ⟨k, hk⟩ : ∃ k, (m + 1).toNat = k + 1 := ⟨m.toNat, by omega⟩
    obtain ⟨r, hr⟩ := retryFuel_succ_isSome env.engine 0 k
    rw [← hk] at hr
    cases hvenv : env.venvExists with
    | true => exact ⟨r, by simp [download_single, hp, hvenv, hr]⟩
    | false =>
      have hg : env.gytmdlInSystem = true := by
        rw [hvenv] at hv
        simpa using hv
      exact ⟨r, by simp [download_single, hp, hvenv, hg, hr]⟩

/-- C9 witness: `max_retries = -1` raises (`none`) on the venv path and
returns the stale 0 normally on the system-Python fallback path. -/
theorem c9_witness :
    download_single ⟨true, true, false, fun _ => 3⟩ (-1) = none ∧
    download_single ⟨true, false, true, fun _ => 3⟩ (-1) = some (0, 0) :=
  ⟨(c9_negative_retries_path_dependent ⟨true, true, false, fun _ => 3⟩ (-1) rfl).1
      (by decide) rfl,
   (c9_negative_retries_path_dependent ⟨true, false, true, fun _ => 3⟩ (-1) rfl).2.1
      (by decide) rfl rfl⟩

/-! ## Claim theorems: server supervisor -/

/-- C8: when there is no healthy already-running instance, `start_server`
returns 1 with build guidance if the entry-point artifact is missing; and
when the artifact exists, the spawn succeeds but the post-spawn probe is
still unhealthy, it returns 0 while warning that the server may need more
time. -/
theorem c8_start_server_contract (e : ServerEnv)
    (hfast : ∀ pid, e.runningPid = some pid → e.healthyBefore = false) :
    (e.fileExists = false →
      (start_server e).1 = 1 ∧
      "Run: cd bgutil-pot-provider && npm install && npx tsc" ∈ (start_server e).2) ∧
    (e.fileExists = true → e.spawnResult = SpawnResult.ok → e.healthyAfter = false →
      (start_server e).1 = 0 ∧
      "Server started but not responding yet, may need a moment..." ∈ (start_server e).2) := by
  have hlift : (start_server e).1 = (start_phase e).1 ∧
      ∀ s, s ∈ (start_phase e).2 → s ∈ (start_server e).2 := by
    unfold start_server
    cases hr : e.runningPid with
    | none => exact ⟨rfl, fun s hs => hs⟩
    | some pid =>
      rw [hfast pid hr]
      exact ⟨rfl, fun s hs => List.mem_cons_of_mem _ hs⟩
  constructor
  · intro hfile
    have hp : start_phase e = (1, ["Server file not found",
        "Run: cd bgutil-pot-provider && npm install && npx tsc"]) := by
      simp [start_phase, hfile]
    refine ⟨by rw [hlift.1, hp], hlift.2 _ ?_⟩
    rw [hp]
    simp
  · intro hfile hspawn hha
    have hp : start_phase e
        = (0, ["Server started but not responding yet, may need a moment..."]) := by
      simp [start_phase, hfile, hspawn, hha]
    refine ⟨by rw [hlift.1, hp], hlift.2 _ ?_⟩
    rw [hp]
    simp

/-- C8 witness: no running instance, artifact present, spawn succeeds,
post-spawn probe unhealthy: exit 0 with the may-need-more-time warning. -/
theorem c8_witness :
    (start_server ⟨none, false, true, SpawnResult.ok, false⟩).1 = 0 ∧
    "Server started but not responding yet, may need a moment..."
      ∈ (start_server ⟨none, false, true, SpawnResult.ok, false⟩).2 :=
  (c8_start_server_contract ⟨none, false, true, SpawnResult.ok, false⟩
    (fun _ h => Option.noConfusion h)).2 rfl rfl rfl

/-! ## Lemmas about the batch loop -/

theorem batch_loop_success_prefix (outcome : Nat × String → ItemOutcome) (cont : Bool) :
    ∀ (pre rest : List (Nat × String)),
      (∀ x ∈ pre, outcome x = ItemOutcome.success) →
      ∀ (a b : Nat) (l : List (Nat × String)),
        batch_loop outcome cont (pre ++ rest) ⟨a, b, l⟩
          = batch_loop outcome cont rest ⟨a + pre.length, b, l⟩ := by
  intro pre
  induction pre with
  | nil =>
    intro rest _ a b l
    simp
  | cons x pre ih =>
    intro rest hpre a b l
    have hx : outcome x = ItemOutcome.success := hpre x (List.mem_cons_self x pre)
    have h1 : batch_loop outcome cont ((x :: pre) ++ rest) ⟨a, b, l⟩
        = batch_loop outcome cont (pre ++ rest) ⟨a + 1, b, l⟩ := by
      show batch_loop outcome cont (x :: (pre ++ rest)) ⟨a, b, l⟩ = _
      simp only [batch_loop, hx]
    rw [h1, ih rest (fun y hy => hpre y (List.mem_cons_of_mem x hy)) (a + 1) b l]
    have e1 : a + 1 + pre.length = a + (x :: pre).length := by
      simp
      omega
    rw [e1]

theorem batch_loop_interrupt (outcome : Nat × String → ItemOutcome) (cont : Bool)
    (item : Nat × String) (rest : List (Nat × String)) (t : BatchTally)
    (hi : outcome item = ItemOutcome.interrupted) :
    batch_loop outcome cont (item :: rest) t = t := by
  simp only [batch_loop, hi]

/-! ## Claim theorems: batch orchestrator -/

/-- C6: batch parsing keeps exactly the non-blank, non-comment lines with
their original 1-based line numbers: on the four-line example file it
yields exactly the first and fourth lines. -/
theorem c6_read_urls_example :
    read_urls ["https://a", "", "# comment", "https://b"]
      = [(1, "https://a"), (4, "https://b")] := by
  decide

/-- C4: for an existing list file, `download_batch` returns 0 iff the
failure count is 0, for every per-item outcome assignment and either value
of `continue_on_error`; a file with zero qualifying items returns 0, and
any run with at least one failure returns 1. -/
theorem c4_batch_exit_code (lines : List String)
    (outcome : Nat × String → ItemOutcome) (cont : Bool) :
    (download_batch (some lines) outcome cont = 0 ↔
      (batch_tally lines outcome cont).fail = 0) ∧
    (read_urls lines = [] → download_batch (some lines) outcome cont = 0) ∧
    ((batch_tally lines outcome cont).fail ≠ 0 →
      download_batch (some lines) outcome cont = 1) := by
  by_cases hurls : read_urls lines = []
  · have htally : batch_tally lines outcome cont = ⟨0, 0, []⟩ := by
      unfold batch_tally
      rw [hurls]
      rfl
    refine ⟨?_, fun _ => ?_, ?_⟩ <;> simp [download_batch, hurls, htally]
  · refine ⟨?_, fun h => absurd h hurls, ?_⟩
    · by_cases hf : (batch_tally lines outcome cont).fail = 0 <;>
        simp [download_batch, hurls, hf]
    · intro hf
      simp [download_batch, hurls, hf]

/-- C4 witness: a one-item file whose item fails exits with 1. -/
theorem c4_witness :
    download_batch (some ["https://a"]) (fun _ => ItemOutcome.failure) true = 1 :=
  (c4_batch_exit_code ["https://a"] (fun _ => ItemOutcome.failure) true).2.2 (by decide)

/-- C10: when the work-item list splits into a successful prefix, an
interrupted item and a remainder, the interrupted item and everything after
it are counted in neither bucket: the tally is exactly
(prefix length, 0 failures, no failed items) and the batch exits 0. -/
theorem c10_interrupt_preserves_counts (lines : List String)
    (outcome : Nat × String → ItemOutcome) (cont : Bool)
    (pre rest : List (Nat × String)) (item : Nat × String)
    (hsplit : read_urls lines = pre ++ item :: rest)
    (hpre : ∀ x ∈ pre, outcome x = ItemOutcome.success)
    (hitem : outcome item = ItemOutcome.interrupted) :
    batch_tally lines outcome cont = ⟨pre.length, 0, []⟩ ∧
    download_batch (some lines) outcome cont = 0 := by
  have htally : batch_tally lines outcome cont = ⟨pre.length, 0, []⟩ := by
    unfold batch_tally
    rw [hsplit, batch_loop_success_prefix outcome cont pre (item :: rest) hpre 0 0 [],
      batch_loop_interrupt outcome cont item rest _ hitem]
    simp
  have hne : read_urls lines ≠ [] := by
    rw [hsplit]
    simp
  exact ⟨htally, by simp [download_batch, hne, htally]⟩

/-- C10 witness: a two-item file where the first item succeeds and the
second is interrupted: tally (1, 0, none failed), exit code 0. -/
theorem c10_witness :
    batch_tally ["https://a", "https://b"]
        (fun p => if p.1 = 2 then ItemOutcome.interrupted else ItemOutcome.success) true
      = ⟨1, 0, []⟩ ∧
    download_batch (some ["https://a", "https://b"])
        (fun p => if p.1 = 2 then ItemOutcome.interrupted else ItemOutcome.success) true
      = 0 :=
  c10_interrupt_preserves_counts ["https://a", "https://b"]
    (fun p => if p.1 = 2 then ItemOutcome.interrupted else ItemOutcome.success) true
    [(1, "https://a")] [] (2, "https://b") (by decide) (by decide) (by decide)

end Ytdl
